import Mathlib

/-!
Verification of the OPAQUE message codec layer (`src/messages.rs`): the six
protocol message types, their `serialize`/`deserialize` implementations, and
the dummy registration upload used for enumeration resistance.

Byte strings are modelled as `List Nat`.  The external cryptographic
capabilities consumed by the codec (OPRF group elements, public keys,
envelopes, key-exchange payloads) are not part of the codec source; they are
modelled from their specified interfaces: a value is represented by its
canonical byte encoding, and the `CipherSuite` record supplies the fixed
lengths and validity predicates that drive each sub-decoder.
-/

/-- Codec-level protocol errors, following the spec's error taxonomy:
size errors, identity-element rejection, point/key decode errors, and
propagated sub-decoder errors. -/
inductive ProtocolError where
  | SizeError
  | IdentityGroupElementError
  | PointError
  | InvalidKeyError
  | SubDecodeError
  deriving DecidableEq

/-- Modelled from the spec: the `CipherSuite` configuration (missing from the
codec source, which is generic over it).  It fixes every length used by the
codec and the validity predicates of the external capabilities: group-element
encodings (`validElem`, with `isIdentity` the identity-element test), public
keys (`validPk` for decoding, `checkPk` for the check-public-key capability),
envelopes, and the three key-exchange payloads. -/
structure CipherSuite where
  elemLen : Nat
  pkLen : Nat
  hashLen : Nat
  envelopeLen : Nat
  ke1Len : Nat
  ke2Len : Nat
  ke3Len : Nat
  validElem : List Nat → Bool
  isIdentity : List Nat → Bool
  validPk : List Nat → Bool
  checkPk : List Nat → Bool
  validEnvelope : List Nat → Bool
  validKe1 : List Nat → Bool
  validKe2 : List Nat → Bool
  validKe3 : List Nat → Bool

/-- Modelled from the spec: `errors::utils::check_slice_size` (missing from
the codec source) — the exact-size check: the input must have exactly the
expected length, otherwise a size error. -/
def check_slice_size (input : List Nat) (expected : Nat) :
    Except ProtocolError (List Nat) :=
  if input.length = expected then Except.ok input
  else Except.error ProtocolError.SizeError

/-- Modelled from the spec: `errors::utils::check_slice_size_atleast`
(missing from the codec source) — the at-least-size check: the input must
have at least the given minimum length, otherwise a size error. -/
def check_slice_size_atleast (input : List Nat) (minimum : Nat) :
    Except ProtocolError (List Nat) :=
  if minimum ≤ input.length then Except.ok input
  else Except.error ProtocolError.SizeError

/-- Modelled from the spec: the group-element capability (voprf
`BlindedElement`/`EvaluationElement` deserialize): reconstruct an element
from exactly `ElemLen` bytes (size error otherwise), failing with a decode
error if the bytes do not encode a valid element.  The decoded element is
represented by its canonical encoding. -/
def elementDeserialize (CS : CipherSuite) (input : List Nat) :
    Except ProtocolError (List Nat) :=
  if input.length = CS.elemLen then
    if CS.validElem input then Except.ok input
    else Except.error ProtocolError.PointError
  else Except.error ProtocolError.SizeError

/-- Modelled from the spec: `PublicKey::from_bytes` — deserialize exactly
`PkLen` bytes into a public key, failing with a decode error on invalid
encodings. -/
def PublicKey.from_bytes (CS : CipherSuite) (input : List Nat) :
    Except ProtocolError (List Nat) :=
  if input.length = CS.pkLen then
    if CS.validPk input then Except.ok input
    else Except.error ProtocolError.PointError
  else Except.error ProtocolError.SizeError

/-- Modelled from the spec: `KeyPair::check_public_key` — rejects
identity/degenerate public keys with a decode error distinct from length
errors. -/
def KeyPair.check_public_key (CS : CipherSuite) (pk : List Nat) :
    Except ProtocolError (List Nat) :=
  if CS.checkPk pk then Except.ok pk
  else Except.error ProtocolError.InvalidKeyError

/-- Modelled from the spec: `Envelope::len()` — the fixed envelope serialized
length, a pure function of the ciphersuite. -/
def Envelope.len (CS : CipherSuite) : Nat :=
  CS.envelopeLen

/-- Modelled from the spec: `Envelope::deserialize` — accepts exactly
`Envelope::len()` bytes, enforcing its own length internally, and validates
the envelope contents. -/
def Envelope.deserialize (CS : CipherSuite) (input : List Nat) :
    Except ProtocolError (List Nat) :=
  if input.length = Envelope.len CS then
    if CS.validEnvelope input then Except.ok input
    else Except.error ProtocolError.SubDecodeError
  else Except.error ProtocolError.SizeError

/-- Modelled from the spec: `Envelope::dummy()` — a canonical dummy envelope
of exactly the real envelope's serialized length. -/
def Envelope.dummy (CS : CipherSuite) : List Nat :=
  List.replicate (Envelope.len CS) 0

/-- Modelled from the spec: `KE1Message::from_bytes` — the key-exchange
sub-decoder for KE1 payloads, enforcing its own exact length internally. -/
def KE1Message.from_bytes (CS : CipherSuite) (input : List Nat) :
    Except ProtocolError (List Nat) :=
  if input.length = CS.ke1Len then
    if CS.validKe1 input then Except.ok input
    else Except.error ProtocolError.SubDecodeError
  else Except.error ProtocolError.SizeError

/-- Modelled from the spec: `KeyExchange::ke2_message_size()` — the
ciphersuite-derived KE2 payload length used by `CredentialResponse`. -/
def KeyExchange.ke2_message_size (CS : CipherSuite) : Nat :=
  CS.ke2Len

/-- Modelled from the spec: `KE2Message::from_bytes` — the key-exchange
sub-decoder for KE2 payloads, enforcing its own exact length internally. -/
def KE2Message.from_bytes (CS : CipherSuite) (input : List Nat) :
    Except ProtocolError (List Nat) :=
  if input.length = KeyExchange.ke2_message_size CS then
    if CS.validKe2 input then Except.ok input
    else Except.error ProtocolError.SubDecodeError
  else Except.error ProtocolError.SizeError

/-- Modelled from the spec: `KE3Message::from_bytes` — the key-exchange
sub-decoder for KE3 payloads, enforcing its own exact length internally. -/
def KE3Message.from_bytes (CS : CipherSuite) (input : List Nat) :
    Except ProtocolError (List Nat) :=
  if input.length = CS.ke3Len then
    if CS.validKe3 input then Except.ok input
    else Except.error ProtocolError.SubDecodeError
  else Except.error ProtocolError.SizeError

/-- Modelled from the spec: the `ServerSetup` record, of which the codec only
reads the fake keypair's public key (`server_setup.fake_keypair.public()`). -/
structure ServerSetup where
  fake_pk : List Nat
  deriving DecidableEq

/-- The message sent by the client to the server, to initiate registration. -/
structure RegistrationRequest where
  blinded_element : List Nat
  deriving DecidableEq

/-- The answer sent by the server to the user, upon reception of the
registration attempt. -/
structure RegistrationResponse where
  evaluation_element : List Nat
  server_s_pk : List Nat
  deriving DecidableEq

/-- The final message from the client, containing sealed cryptographic
identifiers. -/
structure RegistrationUpload where
  envelope : List Nat
  masking_key : List Nat
  client_s_pk : List Nat
  deriving DecidableEq

/-- The message sent by the user to the server, to initiate login. -/
structure CredentialRequest where
  blinded_element : List Nat
  ke1_message : List Nat
  deriving DecidableEq

/-- The answer sent by the server to the user, upon reception of the login
attempt. -/
structure CredentialResponse where
  evaluation_element : List Nat
  masking_nonce : List Nat
  masked_response : List Nat
  ke2_message : List Nat
  deriving DecidableEq

/-- The answer sent by the client to the server, upon reception of the sealed
envelope. -/
structure CredentialFinalization where
  ke3_message : List Nat
  deriving DecidableEq

/-- `RegistrationRequest::serialize`: the blinded element's encoding. -/
def RegistrationRequest.serialize (m : RegistrationRequest) :
    Except ProtocolError (List Nat) :=
  Except.ok m.blinded_element

/-- `RegistrationRequest::deserialize`: delegate the whole input to the
blinded-element decoder. -/
def RegistrationRequest.deserialize (CS : CipherSuite) (input : List Nat) :
    Except ProtocolError RegistrationRequest :=
  match elementDeserialize CS input with
  | Except.error e => Except.error e
  | Except.ok blinded_element => Except.ok { blinded_element := blinded_element }

/-- `RegistrationResponse::serialize`: evaluation element then server public
key. -/
def RegistrationResponse.serialize (m : RegistrationResponse) :
    Except ProtocolError (List Nat) :=
  Except.ok (m.evaluation_element ++ m.server_s_pk)

/-- `RegistrationResponse::deserialize`: exact-size check at
`ElemLen + PkLen`, then decode and check the public key, then decode the
evaluation element. -/
def RegistrationResponse.deserialize (CS : CipherSuite) (input : List Nat) :
    Except ProtocolError RegistrationResponse :=
  match check_slice_size input (CS.elemLen + CS.pkLen) with
  | Except.error e => Except.error e
  | Except.ok checked =>
    match PublicKey.from_bytes CS (checked.drop CS.elemLen) with
    | Except.error e => Except.error e
    | Except.ok pk0 =>
      match KeyPair.check_public_key CS pk0 with
      | Except.error e => Except.error e
      | Except.ok server_s_pk =>
        match elementDeserialize CS (checked.take CS.elemLen) with
        | Except.error e => Except.error e
        | Except.ok evaluation_element =>
          Except.ok { evaluation_element := evaluation_element,
                      server_s_pk := server_s_pk }

/-- `RegistrationUpload::serialize`: client public key, masking key,
envelope. -/
def RegistrationUpload.serialize (m : RegistrationUpload) :
    Except ProtocolError (List Nat) :=
  Except.ok (m.client_s_pk ++ m.masking_key ++ m.envelope)

/-- `RegistrationUpload::deserialize`: at-least-size check at
`PkLen + HashLen`, decode the envelope from the trailing suffix, copy the
masking key, then decode and check the client public key. -/
def RegistrationUpload.deserialize (CS : CipherSuite) (input : List Nat) :
    Except ProtocolError RegistrationUpload :=
  match check_slice_size_atleast input (CS.pkLen + CS.hashLen) with
  | Except.error e => Except.error e
  | Except.ok checked =>
    match Envelope.deserialize CS (checked.drop (CS.pkLen + CS.hashLen)) with
    | Except.error e => Except.error e
    | Except.ok envelope =>
      match PublicKey.from_bytes CS (checked.take CS.pkLen) with
      | Except.error e => Except.error e
      | Except.ok pk0 =>
        match KeyPair.check_public_key CS pk0 with
        | Except.error e => Except.error e
        | Except.ok client_s_pk =>
          Except.ok { envelope := envelope,
                      masking_key := (checked.drop CS.pkLen).take CS.hashLen,
                      client_s_pk := client_s_pk }

/-- `RegistrationUpload::dummy`: dummy envelope, `HashLen` bytes drawn from
the generator for the masking key, and the server setup's fake public key.
The generator is modelled as the stream of bytes it will produce. -/
def RegistrationUpload.dummy (CS : CipherSuite) (rng : Nat → Nat)
    (server_setup : ServerSetup) : RegistrationUpload :=
  { envelope := Envelope.dummy CS,
    masking_key := (List.range CS.hashLen).map rng,
    client_s_pk := server_setup.fake_pk }

/-- `CredentialRequest::serialize`: blinded element then KE1 payload. -/
def CredentialRequest.serialize (m : CredentialRequest) :
    Except ProtocolError (List Nat) :=
  Except.ok (m.blinded_element ++ m.ke1_message)

/-- `CredentialRequest::deserialize`: at-least-size check at `ElemLen`,
decode the blinded element from the prefix, reject the identity element,
then hand the remaining suffix to the KE1 sub-decoder. -/
def CredentialRequest.deserialize (CS : CipherSuite) (input : List Nat) :
    Except ProtocolError CredentialRequest :=
  match check_slice_size_atleast input CS.elemLen with
  | Except.error e => Except.error e
  | Except.ok checked =>
    match elementDeserialize CS (checked.take CS.elemLen) with
    | Except.error e => Except.error e
    | Except.ok blinded_element =>
      if CS.isIdentity blinded_element then
        Except.error ProtocolError.IdentityGroupElementError
      else
        match KE1Message.from_bytes CS (checked.drop CS.elemLen) with
        | Except.error e => Except.error e
        | Except.ok ke1_message =>
          Except.ok { blinded_element := blinded_element,
                      ke1_message := ke1_message }

/-- `CredentialResponse::serialize_without_ke`: evaluation element, masking
nonce, masked response. -/
def CredentialResponse.serialize_without_ke
    (beta masking_nonce masked_response : List Nat) : List Nat :=
  beta ++ masking_nonce ++ masked_response

/-- `CredentialResponse::serialize`: the KE-free prefix followed by the KE2
payload. -/
def CredentialResponse.serialize (m : CredentialResponse) :
    Except ProtocolError (List Nat) :=
  Except.ok (CredentialResponse.serialize_without_ke m.evaluation_element
    m.masking_nonce m.masked_response ++ m.ke2_message)

/-- `CredentialResponse::deserialize`: at-least-size check at
`ElemLen + 32 + (PkLen + EnvelopeLen) + KE2Len`, decode the evaluation
element, reject the identity element, copy the masking nonce and the masked
response, then hand the remaining suffix to the KE2 sub-decoder. -/
def CredentialResponse.deserialize (CS : CipherSuite) (input : List Nat) :
    Except ProtocolError CredentialResponse :=
  match check_slice_size_atleast input
      (CS.elemLen + 32 + (CS.pkLen + Envelope.len CS) +
        KeyExchange.ke2_message_size CS) with
  | Except.error e => Except.error e
  | Except.ok checked =>
    match elementDeserialize CS (checked.take CS.elemLen) with
    | Except.error e => Except.error e
    | Except.ok evaluation_element =>
      if CS.isIdentity evaluation_element then
        Except.error ProtocolError.IdentityGroupElementError
      else
        match KE2Message.from_bytes CS
            (checked.drop (CS.elemLen + 32 + (CS.pkLen + Envelope.len CS))) with
        | Except.error e => Except.error e
        | Except.ok ke2_message =>
          Except.ok { evaluation_element := evaluation_element,
                      masking_nonce := (checked.drop CS.elemLen).take 32,
                      masked_response :=
                        (checked.drop (CS.elemLen + 32)).take
                          (CS.pkLen + Envelope.len CS),
                      ke2_message := ke2_message }

/-- `CredentialFinalization::serialize`: the KE3 payload's encoding. -/
def CredentialFinalization.serialize (m : CredentialFinalization) :
    Except ProtocolError (List Nat) :=
  Except.ok m.ke3_message

/-- `CredentialFinalization::deserialize`: delegate the whole input to the
KE3 sub-decoder. -/
def CredentialFinalization.deserialize (CS : CipherSuite) (input : List Nat) :
    Except ProtocolError CredentialFinalization :=
  match KE3Message.from_bytes CS input with
  | Except.error e => Except.error e
  | Except.ok ke3_message => Except.ok { ke3_message := ke3_message }

/-- Validity of a constructed `RegistrationRequest` (data-model invariant):
the blinded element is a valid encoding of the right length. -/
@[reducible] def RegistrationRequest.valid (CS : CipherSuite) (m : RegistrationRequest) :
    Prop :=
  m.blinded_element.length = CS.elemLen ∧
  CS.validElem m.blinded_element = true

/-- Validity of a constructed `RegistrationResponse`: valid evaluation
element, and a public key that decodes and passes the check. -/
@[reducible] def RegistrationResponse.valid (CS : CipherSuite) (m : RegistrationResponse) :
    Prop :=
  m.evaluation_element.length = CS.elemLen ∧
  CS.validElem m.evaluation_element = true ∧
  m.server_s_pk.length = CS.pkLen ∧
  CS.validPk m.server_s_pk = true ∧
  CS.checkPk m.server_s_pk = true

/-- Validity of a constructed `RegistrationUpload`: valid envelope, masking
key of hash length, and a client public key that decodes and passes the
check. -/
@[reducible] def RegistrationUpload.valid (CS : CipherSuite) (m : RegistrationUpload) :
    Prop :=
  m.envelope.length = Envelope.len CS ∧
  CS.validEnvelope m.envelope = true ∧
  m.masking_key.length = CS.hashLen ∧
  m.client_s_pk.length = CS.pkLen ∧
  CS.validPk m.client_s_pk = true ∧
  CS.checkPk m.client_s_pk = true

/-- Validity of a constructed `CredentialRequest`: valid non-identity blinded
element and a valid KE1 payload. -/
@[reducible] def CredentialRequest.valid (CS : CipherSuite) (m : CredentialRequest) :
    Prop :=
  m.blinded_element.length = CS.elemLen ∧
  CS.validElem m.blinded_element = true ∧
  CS.isIdentity m.blinded_element = false ∧
  m.ke1_message.length = CS.ke1Len ∧
  CS.validKe1 m.ke1_message = true

/-- Validity of a constructed `CredentialResponse`: valid non-identity
evaluation element, 32-byte masking nonce, masked response of
`PkLen + EnvelopeLen` bytes, and a valid KE2 payload. -/
@[reducible] def CredentialResponse.valid (CS : CipherSuite) (m : CredentialResponse) :
    Prop :=
  m.evaluation_element.length = CS.elemLen ∧
  CS.validElem m.evaluation_element = true ∧
  CS.isIdentity m.evaluation_element = false ∧
  m.masking_nonce.length = 32 ∧
  m.masked_response.length = CS.pkLen + Envelope.len CS ∧
  m.ke2_message.length = KeyExchange.ke2_message_size CS ∧
  CS.validKe2 m.ke2_message = true

/-- Validity of a constructed `CredentialFinalization`: a valid KE3
payload. -/
@[reducible] def CredentialFinalization.valid (CS : CipherSuite)
    (m : CredentialFinalization) : Prop :=
  m.ke3_message.length = CS.ke3Len ∧
  CS.validKe3 m.ke3_message = true

/-- A toy ciphersuite with every length 1, `[0]` as the identity element and
the degenerate public key, used to instantiate proved statements. -/
def toyCS : CipherSuite :=
  { elemLen := 1, pkLen := 1, hashLen := 1, envelopeLen := 1,
    ke1Len := 1, ke2Len := 1, ke3Len := 1,
    validElem := fun l => l.length == 1,
    isIdentity := fun l => l == [0],
    validPk := fun l => l.length == 1,
    checkPk := fun l => l != [0],
    validEnvelope := fun _ => true,
    validKe1 := fun _ => true,
    validKe2 := fun _ => true,
    validKe3 := fun _ => true }

/-- A variant of the toy ciphersuite whose KE2 payload is empty, so that a
minimum-length `CredentialResponse` input has an empty trailing payload. -/
def toyCS0 : CipherSuite :=
  { toyCS with ke2Len := 0 }

instance {ε α : Type} [DecidableEq ε] [DecidableEq α] :
    DecidableEq (Except ε α) := fun a b =>
  match a, b with
  | Except.ok x, Except.ok y =>
    if h : x = y then isTrue (by rw [h]) else isFalse (by simp [h])
  | Except.error x, Except.error y =>
    if h : x = y then isTrue (by rw [h]) else isFalse (by simp [h])
  | Except.ok _, Except.error _ => isFalse (by simp)
  | Except.error _, Except.ok _ => isFalse (by simp)

theorem take_append_len {n : Nat} (a b : List Nat) (h : a.length = n) :
    (a ++ b).take n = a := by
  subst h
  induction a with
  | nil => simp
  | cons x xs ih => simp [ih]

theorem drop_append_len {n : Nat} (a b : List Nat) (h : a.length = n) :
    (a ++ b).drop n = b := by
  subst h
  induction a with
  | nil => simp
  | cons x xs ih => simp [ih]

/-- C7: for every one of the six message types, `serialize` returns the
concatenation of the field encodings in field-declaration order with no
length prefixes, tags, or framing; in particular `CredentialResponse`
serializes as evaluation_element ++ masking_nonce ++ masked_response ++ ke2
and `RegistrationUpload` serializes as
client_public_key ++ masking_key ++ envelope. -/
theorem serialize_is_field_concatenation
    (m1 : RegistrationRequest) (m2 : RegistrationResponse)
    (m3 : RegistrationUpload) (m4 : CredentialRequest)
    (m5 : CredentialResponse) (m6 : CredentialFinalization) :
    m1.serialize = Except.ok m1.blinded_element ∧
    m2.serialize = Except.ok (m2.evaluation_element ++ m2.server_s_pk) ∧
    m3.serialize = Except.ok (m3.client_s_pk ++ m3.masking_key ++ m3.envelope) ∧
    m4.serialize = Except.ok (m4.blinded_element ++ m4.ke1_message) ∧
    m5.serialize = Except.ok (m5.evaluation_element ++ m5.masking_nonce ++
      m5.masked_response ++ m5.ke2_message) ∧
    m6.serialize = Except.ok m6.ke3_message := by
  refine ⟨rfl, rfl, rfl, rfl, ?_, rfl⟩
  simp [CredentialResponse.serialize, CredentialResponse.serialize_without_ke,
    List.append_assoc]

/-- C9: for every one of the six message types and every instance,
`serialize` never returns an error: it always returns `Ok` with the encoded
bytes, despite its `Result` return type. -/
theorem serialize_never_fails
    (m1 : RegistrationRequest) (m2 : RegistrationResponse)
    (m3 : RegistrationUpload) (m4 : CredentialRequest)
    (m5 : CredentialResponse) (m6 : CredentialFinalization) :
    (∃ s, m1.serialize = Except.ok s) ∧
    (∃ s, m2.serialize = Except.ok s) ∧
    (∃ s, m3.serialize = Except.ok s) ∧
    (∃ s, m4.serialize = Except.ok s) ∧
    (∃ s, m5.serialize = Except.ok s) ∧
    (∃ s, m6.serialize = Except.ok s) :=
  ⟨⟨_, rfl⟩, ⟨_, rfl⟩, ⟨_, rfl⟩, ⟨_, rfl⟩, ⟨_, rfl⟩, ⟨_, rfl⟩⟩

/-- C3: for `RegistrationRequest::deserialize` and
`CredentialFinalization::deserialize`, every input buffer whose length
differs from the expected exact length for the ciphersuite (shorter or
longer) fails decode with a size error. -/
theorem exact_length_rejection (CS : CipherSuite) (a b : List Nat)
    (ha : a.length ≠ CS.elemLen) (hb : b.length ≠ CS.ke3Len) :
    RegistrationRequest.deserialize CS a = Except.error ProtocolError.SizeError ∧
    CredentialFinalization.deserialize CS b =
      Except.error ProtocolError.SizeError := by
  constructor
  · simp [RegistrationRequest.deserialize, elementDeserialize, ha]
  · simp [CredentialFinalization.deserialize, KE3Message.from_bytes, hb]

/-- Witness for C3 at the toy ciphersuite: the empty input (too short) and a
two-byte input (too long) are both rejected with a size error. -/
theorem exact_length_rejection_witness :
    RegistrationRequest.deserialize toyCS [] =
      Except.error ProtocolError.SizeError ∧
    CredentialFinalization.deserialize toyCS [1, 2] =
      Except.error ProtocolError.SizeError :=
  exact_length_rejection toyCS [] [1, 2] (by decide) (by decide)

/-- C5: `RegistrationResponse::deserialize` succeeds only on inputs of length
exactly `ElemLen + PkLen` for the ciphersuite; any input of a different
length fails with a size error. -/
theorem registration_response_exact_length (CS : CipherSuite)
    (input : List Nat) (h : input.length ≠ CS.elemLen + CS.pkLen) :
    RegistrationResponse.deserialize CS input =
      Except.error ProtocolError.SizeError := by
  simp [RegistrationResponse.deserialize, check_slice_size, h]

/-- Witness for C5 at the toy ciphersuite: a one-byte input (expected length
is two) is rejected with a size error. -/
theorem registration_response_exact_length_witness :
    RegistrationResponse.deserialize toyCS [1] =
      Except.error ProtocolError.SizeError :=
  registration_response_exact_length toyCS [1] (by decide)

theorem length_take_of_le {n : Nat} {l : List Nat} (h : n ≤ l.length) :
    (l.take n).length = n := by
  simp [List.length_take]
  omega

/-- C1: deserializing a `CredentialRequest` or a `CredentialResponse` from
bytes whose OPRF-element position encodes the group identity element fails
with `IdentityGroupElementError`, even when every other field of the input
is arbitrary; the identity-element check is not applied when deserializing
`RegistrationRequest` or `RegistrationResponse`, whose decode succeeds on a
validly encoded identity element. -/
theorem identity_element_rejection (CS : CipherSuite)
    (req resp rreq rresp : List Nat)
    (hreq_len : CS.elemLen ≤ req.length)
    (hreq_valid : CS.validElem (req.take CS.elemLen) = true)
    (hreq_id : CS.isIdentity (req.take CS.elemLen) = true)
    (hresp_len : CS.elemLen + 32 + (CS.pkLen + Envelope.len CS) +
      KeyExchange.ke2_message_size CS ≤ resp.length)
    (hresp_valid : CS.validElem (resp.take CS.elemLen) = true)
    (hresp_id : CS.isIdentity (resp.take CS.elemLen) = true)
    (hrreq_len : rreq.length = CS.elemLen)
    (hrreq_valid : CS.validElem rreq = true)
    (hrreq_id : CS.isIdentity rreq = true)
    (hrresp_len : rresp.length = CS.elemLen + CS.pkLen)
    (hrresp_valid : CS.validElem (rresp.take CS.elemLen) = true)
    (hrresp_id : CS.isIdentity (rresp.take CS.elemLen) = true)
    (hrresp_pk : CS.validPk (rresp.drop CS.elemLen) = true)
    (hrresp_ck : CS.checkPk (rresp.drop CS.elemLen) = true) :
    CredentialRequest.deserialize CS req =
      Except.error ProtocolError.IdentityGroupElementError ∧
    CredentialResponse.deserialize CS resp =
      Except.error ProtocolError.IdentityGroupElementError ∧
    RegistrationRequest.deserialize CS rreq =
      Except.ok { blinded_element := rreq } ∧
    RegistrationResponse.deserialize CS rresp =
      Except.ok { evaluation_element := rresp.take CS.elemLen,
                  server_s_pk := rresp.drop CS.elemLen } := by
  refine ⟨?_, ?_, ?_, ?_⟩
  · have hchk : check_slice_size_atleast req CS.elemLen = Except.ok req := by
      simp [check_slice_size_atleast, hreq_len]
    have helem : elementDeserialize CS (req.take CS.elemLen) =
        Except.ok (req.take CS.elemLen) := by
      simp [elementDeserialize, length_take_of_le hreq_len, hreq_valid]
    simp [CredentialRequest.deserialize, hchk, helem, hreq_id]
  · have hle : CS.elemLen ≤ resp.length := by omega
    have hchk : check_slice_size_atleast resp
        (CS.elemLen + 32 + (CS.pkLen + Envelope.len CS) +
          KeyExchange.ke2_message_size CS) = Except.ok resp := by
      simp [check_slice_size_atleast, hresp_len]
    have helem : elementDeserialize CS (resp.take CS.elemLen) =
        Except.ok (resp.take CS.elemLen) := by
      simp [elementDeserialize, length_take_of_le hle, hresp_valid]
    simp [CredentialResponse.deserialize, hchk, helem, hresp_id]
  · simp [RegistrationRequest.deserialize, elementDeserialize, hrreq_len,
      hrreq_valid]
  · have hle : CS.elemLen ≤ rresp.length := by omega
    have hchk : check_slice_size rresp (CS.elemLen + CS.pkLen) =
        Except.ok rresp := by
      simp [check_slice_size, hrresp_len]
    have hdrop_len : (rresp.drop CS.elemLen).length = CS.pkLen := by
      simp [List.length_drop]
      omega
    have hpk : PublicKey.from_bytes CS (rresp.drop CS.elemLen) =
        Except.ok (rresp.drop CS.elemLen) := by
      simp [PublicKey.from_bytes, hdrop_len, hrresp_pk]
    have hck : KeyPair.check_public_key CS (rresp.drop CS.elemLen) =
        Except.ok (rresp.drop CS.elemLen) := by
      simp [KeyPair.check_public_key, hrresp_ck]
    have helem : elementDeserialize CS (rresp.take CS.elemLen) =
        Except.ok (rresp.take CS.elemLen) := by
      simp [elementDeserialize, length_take_of_le hle, hrresp_valid]
    simp [RegistrationResponse.deserialize, hchk, hpk, hck, helem]

/-- Witness for C1 at the toy ciphersuite, whose identity element is encoded
as `[0]`: login messages carrying it are rejected, registration messages
carrying it decode successfully. -/
theorem identity_element_rejection_witness :
    CredentialRequest.deserialize toyCS [0, 5] =
      Except.error ProtocolError.IdentityGroupElementError ∧
    CredentialResponse.deserialize toyCS (0 :: List.replicate 35 1) =
      Except.error ProtocolError.IdentityGroupElementError ∧
    RegistrationRequest.deserialize toyCS [0] =
      Except.ok { blinded_element := [0] } ∧
    RegistrationResponse.deserialize toyCS [0, 1] =
      Except.ok { evaluation_element := ([0, 1] : List Nat).take toyCS.elemLen,
                  server_s_pk := ([0, 1] : List Nat).drop toyCS.elemLen } :=
  identity_element_rejection toyCS [0, 5] (0 :: List.replicate 35 1) [0] [0, 1]
    (by decide) (by decide) (by decide) (by decide) (by decide) (by decide)
    (by decide) (by decide) (by decide) (by decide) (by decide) (by decide)
    (by decide) (by decide)

/-- C6: deserializing a `RegistrationResponse` or a `RegistrationUpload`
whose embedded public-key bytes fail the check-public-key test fails with a
decode error, even when all length checks pass. -/
theorem degenerate_key_rejection (CS : CipherSuite) (a b env : List Nat)
    (ha_len : a.length = CS.elemLen + CS.pkLen)
    (ha_pk : CS.validPk (a.drop CS.elemLen) = true)
    (ha_ck : CS.checkPk (a.drop CS.elemLen) = false)
    (hb_len : CS.pkLen + CS.hashLen ≤ b.length)
    (hb_env : Envelope.deserialize CS (b.drop (CS.pkLen + CS.hashLen)) =
      Except.ok env)
    (hb_pk : CS.validPk (b.take CS.pkLen) = true)
    (hb_ck : CS.checkPk (b.take CS.pkLen) = false) :
    RegistrationResponse.deserialize CS a =
      Except.error ProtocolError.InvalidKeyError ∧
    RegistrationUpload.deserialize CS b =
      Except.error ProtocolError.InvalidKeyError := by
  constructor
  · have hchk : check_slice_size a (CS.elemLen + CS.pkLen) = Except.ok a := by
      simp [check_slice_size, ha_len]
    have hdrop_len : (a.drop CS.elemLen).length = CS.pkLen := by
      simp [List.length_drop]
      omega
    have hpk : PublicKey.from_bytes CS (a.drop CS.elemLen) =
        Except.ok (a.drop CS.elemLen) := by
      simp [PublicKey.from_bytes, hdrop_len, ha_pk]
    have hck : KeyPair.check_public_key CS (a.drop CS.elemLen) =
        Except.error ProtocolError.InvalidKeyError := by
      simp [KeyPair.check_public_key, ha_ck]
    simp [RegistrationResponse.deserialize, hchk, hpk, hck]
  · have hchk : check_slice_size_atleast b (CS.pkLen + CS.hashLen) =
        Except.ok b := by
      simp [check_slice_size_atleast, hb_len]
    have hle : CS.pkLen ≤ b.length := by omega
    have hpk : PublicKey.from_bytes CS (b.take CS.pkLen) =
        Except.ok (b.take CS.pkLen) := by
      simp [PublicKey.from_bytes, length_take_of_le hle, hb_pk]
    have hck : KeyPair.check_public_key CS (b.take CS.pkLen) =
        Except.error ProtocolError.InvalidKeyError := by
      simp [KeyPair.check_public_key, hb_ck]
    simp [RegistrationUpload.deserialize, hchk, hb_env, hpk, hck]

/-- Witness for C6 at the toy ciphersuite, whose degenerate public key is
`[0]`: a well-sized `RegistrationResponse` and `RegistrationUpload` carrying
it are rejected. -/
theorem degenerate_key_rejection_witness :
    RegistrationResponse.deserialize toyCS [1, 0] =
      Except.error ProtocolError.InvalidKeyError ∧
    RegistrationUpload.deserialize toyCS [0, 3, 9] =
      Except.error ProtocolError.InvalidKeyError :=
  degenerate_key_rejection toyCS [1, 0] [0, 3, 9] [9]
    (by decide) (by decide) (by decide) (by decide) (by decide) (by decide)
    (by decide)

/-- C4: for `RegistrationUpload::deserialize`,
`CredentialRequest::deserialize`, and `CredentialResponse::deserialize`,
every input shorter than the computed minimum length fails with a size
error; on an input exactly at the minimum, whose trailing payload is then
empty (for `CredentialResponse` this requires a zero-size KE2 payload), the
result is exactly the trailing sub-decoder's verdict on the empty input:
acceptance only if the sub-decoder accepts zero length, and its error
propagated otherwise. -/
theorem minimum_length_policy (CS : CipherSuite) (a b c d e f : List Nat)
    (ha : a.length < CS.pkLen + CS.hashLen)
    (hb : b.length = CS.pkLen + CS.hashLen)
    (hc : c.length < CS.elemLen)
    (hd : d.length = CS.elemLen)
    (hdv : CS.validElem d = true)
    (hdi : CS.isIdentity d = false)
    (he : e.length < CS.elemLen + 32 + (CS.pkLen + Envelope.len CS) +
      KeyExchange.ke2_message_size CS)
    (hke2 : KeyExchange.ke2_message_size CS = 0)
    (hf : f.length = CS.elemLen + 32 + (CS.pkLen + Envelope.len CS) +
      KeyExchange.ke2_message_size CS)
    (hfv : CS.validElem (f.take CS.elemLen) = true)
    (hfi : CS.isIdentity (f.take CS.elemLen) = false) :
    RegistrationUpload.deserialize CS a =
      Except.error ProtocolError.SizeError ∧
    CredentialRequest.deserialize CS c =
      Except.error ProtocolError.SizeError ∧
    CredentialResponse.deserialize CS e =
      Except.error ProtocolError.SizeError ∧
    RegistrationUpload.deserialize CS b =
      (Envelope.deserialize CS []).bind (fun env =>
        (PublicKey.from_bytes CS (b.take CS.pkLen)).bind (fun pk0 =>
          (KeyPair.check_public_key CS pk0).map (fun pk =>
            { envelope := env,
              masking_key := (b.drop CS.pkLen).take CS.hashLen,
              client_s_pk := pk }))) ∧
    CredentialRequest.deserialize CS d =
      (KE1Message.from_bytes CS []).map (fun ke1 =>
        { blinded_element := d, ke1_message := ke1 }) ∧
    CredentialResponse.deserialize CS f =
      (KE2Message.from_bytes CS []).map (fun ke2 =>
        { evaluation_element := f.take CS.elemLen,
          masking_nonce := (f.drop CS.elemLen).take 32,
          masked_response :=
            (f.drop (CS.elemLen + 32)).take (CS.pkLen + Envelope.len CS),
          ke2_message := ke2 }) := by
  refine ⟨?_, ?_, ?_, ?_, ?_, ?_⟩
  · have hlt : ¬ (CS.pkLen + CS.hashLen ≤ a.length) := by omega
    simp [RegistrationUpload.deserialize, check_slice_size_atleast, hlt]
  · have hlt : ¬ (CS.elemLen ≤ c.length) := by omega
    simp [CredentialRequest.deserialize, check_slice_size_atleast, hlt]
  · have hlt : ¬ (CS.elemLen + 32 + (CS.pkLen + Envelope.len CS) +
        KeyExchange.ke2_message_size CS ≤ e.length) := by omega
    simp [CredentialResponse.deserialize, check_slice_size_atleast, hlt]
  · have hchk : check_slice_size_atleast b (CS.pkLen + CS.hashLen) =
        Except.ok b := by
      simp [check_slice_size_atleast, hb]
    have hsuffix : b.drop (CS.pkLen + CS.hashLen) = [] := by
      rw [← hb]
      exact List.drop_length b
    cases hE : Envelope.deserialize CS [] with
    | error ε =>
      simp [RegistrationUpload.deserialize, hchk, hsuffix, hE, Except.bind]
    | ok env =>
      cases hP : PublicKey.from_bytes CS (b.take CS.pkLen) with
      | error ε =>
        simp [RegistrationUpload.deserialize, hchk, hsuffix, hE, hP,
          Except.bind]
      | ok pk0 =>
        cases hC : KeyPair.check_public_key CS pk0 with
        | error ε =>
          simp [RegistrationUpload.deserialize, hchk, hsuffix, hE, hP, hC,
            Except.bind, Except.map]
        | ok pk =>
          simp [RegistrationUpload.deserialize, hchk, hsuffix, hE, hP, hC,
            Except.bind, Except.map]
  · have hle : CS.elemLen ≤ d.length := by omega
    have hchk : check_slice_size_atleast d CS.elemLen = Except.ok d := by
      simp [check_slice_size_atleast, hle]
    have htake : d.take CS.elemLen = d := by
      rw [← hd]
      exact List.take_length d
    have helem : elementDeserialize CS d = Except.ok d := by
      simp [elementDeserialize, hd, hdv]
    have hsuffix : d.drop CS.elemLen = [] := by
      rw [← hd]
      exact List.drop_length d
    cases hK : KE1Message.from_bytes CS [] with
    | error ε =>
      simp [CredentialRequest.deserialize, hchk, htake, helem, hsuffix, hdi,
        hK, Except.map]
    | ok ke1 =>
      simp [CredentialRequest.deserialize, hchk, htake, helem, hsuffix, hdi,
        hK, Except.map]
  · have hle : CS.elemLen ≤ f.length := by omega
    have hchk : check_slice_size_atleast f
        (CS.elemLen + 32 + (CS.pkLen + Envelope.len CS) +
          KeyExchange.ke2_message_size CS) = Except.ok f := by
      simp [check_slice_size_atleast, hf]
    have helem : elementDeserialize CS (f.take CS.elemLen) =
        Except.ok (f.take CS.elemLen) := by
      simp [elementDeserialize, length_take_of_le hle, hfv]
    have hsuffix : f.drop (CS.elemLen + 32 + (CS.pkLen + Envelope.len CS))
        = [] := by
      have hlen : f.length = CS.elemLen + 32 + (CS.pkLen + Envelope.len CS) := by
        omega
      rw [← hlen]
      exact List.drop_length f
    cases hK : KE2Message.from_bytes CS [] with
    | error ε =>
      simp [CredentialResponse.deserialize, hchk, helem, hsuffix, hfi, hK,
        Except.map]
    | ok ke2 =>
      simp [CredentialResponse.deserialize, hchk, helem, hsuffix, hfi, hK,
        Except.map]

/-- Witness for C4 at the toy ciphersuite with an empty KE2 payload: short
inputs are rejected with a size error, and at exact-minimum inputs the
result is exactly the trailing sub-decoder's verdict on the empty suffix. -/
theorem minimum_length_policy_witness :
    RegistrationUpload.deserialize toyCS0 [1] =
      Except.error ProtocolError.SizeError ∧
    CredentialRequest.deserialize toyCS0 [] =
      Except.error ProtocolError.SizeError ∧
    CredentialResponse.deserialize toyCS0 [] =
      Except.error ProtocolError.SizeError ∧
    RegistrationUpload.deserialize toyCS0 [1, 2] =
      (Envelope.deserialize toyCS0 []).bind (fun env =>
        (PublicKey.from_bytes toyCS0 (([1, 2] : List Nat).take toyCS0.pkLen)).bind
          (fun pk0 =>
          (KeyPair.check_public_key toyCS0 pk0).map (fun pk =>
            { envelope := env,
              masking_key :=
                (([1, 2] : List Nat).drop toyCS0.pkLen).take toyCS0.hashLen,
              client_s_pk := pk }))) ∧
    CredentialRequest.deserialize toyCS0 [3] =
      (KE1Message.from_bytes toyCS0 []).map (fun ke1 =>
        { blinded_element := [3], ke1_message := ke1 }) ∧
    CredentialResponse.deserialize toyCS0 (3 :: List.replicate 34 7) =
      (KE2Message.from_bytes toyCS0 []).map (fun ke2 =>
        { evaluation_element := (3 :: List.replicate 34 7).take toyCS0.elemLen,
          masking_nonce :=
            ((3 :: List.replicate 34 7).drop toyCS0.elemLen).take 32,
          masked_response :=
            ((3 :: List.replicate 34 7).drop (toyCS0.elemLen + 32)).take
              (toyCS0.pkLen + Envelope.len toyCS0),
          ke2_message := ke2 }) :=
  minimum_length_policy toyCS0 [1] [1, 2] [] [3] [] (3 :: List.replicate 34 7)
    (by decide) (by decide) (by decide) (by decide) (by decide) (by decide)
    (by decide) (by decide) (by decide) (by decide) (by decide)

/-- C10: whenever `CredentialResponse::deserialize` succeeds, the resulting
value's masking nonce has length exactly 32 bytes and its masked response
has length exactly `PkLen + EnvelopeLen` for the ciphersuite, for every
input buffer. -/
theorem credential_response_decoded_lengths (CS : CipherSuite)
    (input : List Nat) (m : CredentialResponse)
    (h : CredentialResponse.deserialize CS input = Except.ok m) :
    m.masking_nonce.length = 32 ∧
    m.masked_response.length = CS.pkLen + Envelope.len CS := by
  by_cases hle : CS.elemLen + 32 + (CS.pkLen + Envelope.len CS) +
      KeyExchange.ke2_message_size CS ≤ input.length
  case neg =>
    simp [CredentialResponse.deserialize, check_slice_size_atleast, hle] at h
  case pos =>
    have hchk : check_slice_size_atleast input
        (CS.elemLen + 32 + (CS.pkLen + Envelope.len CS) +
          KeyExchange.ke2_message_size CS) = Except.ok input := by
      simp [check_slice_size_atleast, hle]
    simp only [CredentialResponse.deserialize, hchk] at h
    cases hE : elementDeserialize CS (input.take CS.elemLen) with
    | error ε =>
      rw [hE] at h
      simp at h
    | ok elem =>
      rw [hE] at h
      by_cases hid : CS.isIdentity elem = true
      case pos =>
        simp [hid] at h
      case neg =>
        simp only [hid, Bool.false_eq_true, if_false] at h
        cases hK : KE2Message.from_bytes CS
            (input.drop (CS.elemLen + 32 + (CS.pkLen + Envelope.len CS))) with
        | error ε =>
          rw [hK] at h
          simp at h
        | ok ke2 =>
          rw [hK] at h
          simp only [Except.ok.injEq] at h
          subst h
          refine ⟨?_, ?_⟩ <;> simp [List.length_take, List.length_drop] <;> omega

/-- Witness for C10 at the toy ciphersuite: a successfully decoded
`CredentialResponse` carries a 32-byte masking nonce and a masked response
of `PkLen + EnvelopeLen` bytes. -/
theorem credential_response_decoded_lengths_witness :
    ({ evaluation_element := [1], masking_nonce := List.replicate 32 9,
       masked_response := [5, 6], ke2_message := [7] } :
      CredentialResponse).masking_nonce.length = 32 ∧
    ({ evaluation_element := [1], masking_nonce := List.replicate 32 9,
       masked_response := [5, 6], ke2_message := [7] } :
      CredentialResponse).masked_response.length =
      toyCS.pkLen + Envelope.len toyCS :=
  credential_response_decoded_lengths toyCS
    ([1] ++ List.replicate 32 9 ++ [5, 6] ++ [7])
    { evaluation_element := [1], masking_nonce := List.replicate 32 9,
      masked_response := [5, 6], ke2_message := [7] }
    (by decide)

/-- C2: for every one of the six message types and every valid constructed
instance `m` over a fixed ciphersuite, `deserialize (serialize m)` succeeds
and yields a value equal to `m`. -/
theorem roundtrip_serialization (CS : CipherSuite)
    (m1 : RegistrationRequest) (m2 : RegistrationResponse)
    (m3 : RegistrationUpload) (m4 : CredentialRequest)
    (m5 : CredentialResponse) (m6 : CredentialFinalization)
    (h1 : m1.valid CS) (h2 : m2.valid CS) (h3 : m3.valid CS)
    (h4 : m4.valid CS) (h5 : m5.valid CS) (h6 : m6.valid CS) :
    m1.serialize.bind (RegistrationRequest.deserialize CS) = Except.ok m1 ∧
    m2.serialize.bind (RegistrationResponse.deserialize CS) = Except.ok m2 ∧
    m3.serialize.bind (RegistrationUpload.deserialize CS) = Except.ok m3 ∧
    m4.serialize.bind (CredentialRequest.deserialize CS) = Except.ok m4 ∧
    m5.serialize.bind (CredentialResponse.deserialize CS) = Except.ok m5 ∧
    m6.serialize.bind (CredentialFinalization.deserialize CS) =
      Except.ok m6 := by
  refine ⟨?_, ?_, ?_, ?_, ?_, ?_⟩
  · obtain ⟨hl, hv⟩ := h1
    have helem : elementDeserialize CS m1.blinded_element =
        Except.ok m1.blinded_element := by
      simp [elementDeserialize, hl, hv]
    simp [RegistrationRequest.serialize, Except.bind,
      RegistrationRequest.deserialize, helem]
  · obtain ⟨hel, hev, hpl, hpv, hpc⟩ := h2
    have hlen : (m2.evaluation_element ++ m2.server_s_pk).length =
        CS.elemLen + CS.pkLen := by
      simp [hel, hpl]
    have hchk : check_slice_size (m2.evaluation_element ++ m2.server_s_pk)
        (CS.elemLen + CS.pkLen) =
        Except.ok (m2.evaluation_element ++ m2.server_s_pk) := by
      simp [check_slice_size, hlen]
    have hdrop : (m2.evaluation_element ++ m2.server_s_pk).drop CS.elemLen =
        m2.server_s_pk := drop_append_len _ _ hel
    have htake : (m2.evaluation_element ++ m2.server_s_pk).take CS.elemLen =
        m2.evaluation_element := take_append_len _ _ hel
    have hpk : PublicKey.from_bytes CS m2.server_s_pk =
        Except.ok m2.server_s_pk := by
      simp [PublicKey.from_bytes, hpl, hpv]
    have hck : KeyPair.check_public_key CS m2.server_s_pk =
        Except.ok m2.server_s_pk := by
      simp [KeyPair.check_public_key, hpc]
    have helem : elementDeserialize CS m2.evaluation_element =
        Except.ok m2.evaluation_element := by
      simp [elementDeserialize, hel, hev]
    simp [RegistrationResponse.serialize, Except.bind,
      RegistrationResponse.deserialize, hchk, hdrop, htake, hpk, hck, helem]
  · obtain ⟨henl, henv, hmkl, hpl, hpv, hpc⟩ := h3
    have hassoc : m3.client_s_pk ++ m3.masking_key ++ m3.envelope =
        m3.client_s_pk ++ (m3.masking_key ++ m3.envelope) :=
      List.append_assoc _ _ _
    have hge : CS.pkLen + CS.hashLen ≤
        m3.client_s_pk.length + (m3.masking_key.length + m3.envelope.length) := by
      rw [hpl, hmkl, henl]
      omega
    have hchk : check_slice_size_atleast
        (m3.client_s_pk ++ (m3.masking_key ++ m3.envelope))
        (CS.pkLen + CS.hashLen) =
        Except.ok (m3.client_s_pk ++ (m3.masking_key ++ m3.envelope)) := by
      simp [check_slice_size_atleast, hge]
    have hdrop1 : (m3.client_s_pk ++ (m3.masking_key ++ m3.envelope)).drop
        CS.pkLen = m3.masking_key ++ m3.envelope := drop_append_len _ _ hpl
    have hsuffix : (m3.client_s_pk ++ (m3.masking_key ++ m3.envelope)).drop
        (CS.pkLen + CS.hashLen) = m3.envelope := by
      rw [← List.drop_drop, hdrop1]
      exact drop_append_len _ _ hmkl
    have hmask : ((m3.client_s_pk ++ (m3.masking_key ++ m3.envelope)).drop
        CS.pkLen).take CS.hashLen = m3.masking_key := by
      rw [hdrop1]
      exact take_append_len _ _ hmkl
    have htake : (m3.client_s_pk ++ (m3.masking_key ++ m3.envelope)).take
        CS.pkLen = m3.client_s_pk := take_append_len _ _ hpl
    have henv2 : Envelope.deserialize CS m3.envelope =
        Except.ok m3.envelope := by
      simp [Envelope.deserialize, henl, henv]
    have hpk : PublicKey.from_bytes CS m3.client_s_pk =
        Except.ok m3.client_s_pk := by
      simp [PublicKey.from_bytes, hpl, hpv]
    have hck : KeyPair.check_public_key CS m3.client_s_pk =
        Except.ok m3.client_s_pk := by
      simp [KeyPair.check_public_key, hpc]
    simp [RegistrationUpload.serialize, Except.bind, hassoc,
      RegistrationUpload.deserialize, hchk, hsuffix, hmask, htake, henv2,
      hpk, hck]
  · obtain ⟨hbl, hbv, hbi, hkl, hkv⟩ := h4
    have hlen : (m4.blinded_element ++ m4.ke1_message).length =
        CS.elemLen + CS.ke1Len := by
      simp [hbl, hkl]
    have hchk : check_slice_size_atleast
        (m4.blinded_element ++ m4.ke1_message) CS.elemLen =
        Except.ok (m4.blinded_element ++ m4.ke1_message) := by
      simp [check_slice_size_atleast, hlen]
    have htake : (m4.blinded_element ++ m4.ke1_message).take CS.elemLen =
        m4.blinded_element := take_append_len _ _ hbl
    have hdrop : (m4.blinded_element ++ m4.ke1_message).drop CS.elemLen =
        m4.ke1_message := drop_append_len _ _ hbl
    have helem : elementDeserialize CS m4.blinded_element =
        Except.ok m4.blinded_element := by
      simp [elementDeserialize, hbl, hbv]
    have hke1 : KE1Message.from_bytes CS m4.ke1_message =
        Except.ok m4.ke1_message := by
      simp [KE1Message.from_bytes, hkl, hkv]
    simp [CredentialRequest.serialize, Except.bind,
      CredentialRequest.deserialize, hchk, htake, hdrop, helem, hbi, hke1]
  · obtain ⟨hel, hev, hei, hnl, hml, hkl, hkv⟩ := h5
    have hs : CredentialResponse.serialize_without_ke m5.evaluation_element
        m5.masking_nonce m5.masked_response ++ m5.ke2_message =
        m5.evaluation_element ++ (m5.masking_nonce ++
          (m5.masked_response ++ m5.ke2_message)) := by
      simp [CredentialResponse.serialize_without_ke, List.append_assoc]
    have hlen : (m5.evaluation_element ++ (m5.masking_nonce ++
        (m5.masked_response ++ m5.ke2_message))).length =
        CS.elemLen + 32 + (CS.pkLen + Envelope.len CS) +
          KeyExchange.ke2_message_size CS := by
      simp [hel, hnl, hml, hkl]
      omega
    have hchk : check_slice_size_atleast
        (m5.evaluation_element ++ (m5.masking_nonce ++
          (m5.masked_response ++ m5.ke2_message)))
        (CS.elemLen + 32 + (CS.pkLen + Envelope.len CS) +
          KeyExchange.ke2_message_size CS) =
        Except.ok (m5.evaluation_element ++ (m5.masking_nonce ++
          (m5.masked_response ++ m5.ke2_message))) := by
      simp [check_slice_size_atleast, hlen]
    have htake : (m5.evaluation_element ++ (m5.masking_nonce ++
        (m5.masked_response ++ m5.ke2_message))).take CS.elemLen =
        m5.evaluation_element := take_append_len _ _ hel
    have hdrop1 : (m5.evaluation_element ++ (m5.masking_nonce ++
        (m5.masked_response ++ m5.ke2_message))).drop CS.elemLen =
        m5.masking_nonce ++ (m5.masked_response ++ m5.ke2_message) :=
      drop_append_len _ _ hel
    have hnonce : ((m5.evaluation_element ++ (m5.masking_nonce ++
        (m5.masked_response ++ m5.ke2_message))).drop CS.elemLen).take 32 =
        m5.masking_nonce := by
      rw [hdrop1]
      exact take_append_len _ _ hnl
    have hdrop2 : (m5.evaluation_element ++ (m5.masking_nonce ++
        (m5.masked_response ++ m5.ke2_message))).drop (CS.elemLen + 32) =
        m5.masked_response ++ m5.ke2_message := by
      rw [← List.drop_drop, hdrop1]
      exact drop_append_len _ _ hnl
    have hmasked : ((m5.evaluation_element ++ (m5.masking_nonce ++
        (m5.masked_response ++ m5.ke2_message))).drop
          (CS.elemLen + 32)).take (CS.pkLen + Envelope.len CS) =
        m5.masked_response := by
      rw [hdrop2]
      exact take_append_len _ _ hml
    have hke : (m5.evaluation_element ++ (m5.masking_nonce ++
        (m5.masked_response ++ m5.ke2_message))).drop
          (CS.elemLen + 32 + (CS.pkLen + Envelope.len CS)) =
        m5.ke2_message := by
      rw [← List.drop_drop, hdrop2]
      exact drop_append_len _ _ hml
    have helem : elementDeserialize CS m5.evaluation_element =
        Except.ok m5.evaluation_element := by
      simp [elementDeserialize, hel, hev]
    have hke2 : KE2Message.from_bytes CS m5.ke2_message =
        Except.ok m5.ke2_message := by
      simp [KE2Message.from_bytes, hkl, hkv]
    simp [CredentialResponse.serialize, Except.bind, hs,
      CredentialResponse.deserialize, hchk, htake, hnonce, hmasked, hke,
      helem, hei, hke2]
  · obtain ⟨hl, hv⟩ := h6
    have hke3 : KE3Message.from_bytes CS m6.ke3_message =
        Except.ok m6.ke3_message := by
      simp [KE3Message.from_bytes, hl, hv]
    simp [CredentialFinalization.serialize, Except.bind,
      CredentialFinalization.deserialize, hke3]

/-- Witness for C2 at the toy ciphersuite: a concrete valid instance of each
of the six message types decodes back from its own encoding. -/
theorem roundtrip_serialization_witness :
    (RegistrationRequest.serialize { blinded_element := [1] }).bind
      (RegistrationRequest.deserialize toyCS) =
      Except.ok { blinded_element := [1] } ∧
    (RegistrationResponse.serialize
        { evaluation_element := [1], server_s_pk := [2] }).bind
      (RegistrationResponse.deserialize toyCS) =
      Except.ok { evaluation_element := [1], server_s_pk := [2] } ∧
    (RegistrationUpload.serialize
        { envelope := [2], masking_key := [3], client_s_pk := [1] }).bind
      (RegistrationUpload.deserialize toyCS) =
      Except.ok { envelope := [2], masking_key := [3], client_s_pk := [1] } ∧
    (CredentialRequest.serialize
        { blinded_element := [1], ke1_message := [4] }).bind
      (CredentialRequest.deserialize toyCS) =
      Except.ok { blinded_element := [1], ke1_message := [4] } ∧
    (CredentialResponse.serialize
        { evaluation_element := [1], masking_nonce := List.replicate 32 7,
          masked_response := [8, 9], ke2_message := [5] }).bind
      (CredentialResponse.deserialize toyCS) =
      Except.ok { evaluation_element := [1],
                  masking_nonce := List.replicate 32 7,
                  masked_response := [8, 9], ke2_message := [5] } ∧
    (CredentialFinalization.serialize { ke3_message := [6] }).bind
      (CredentialFinalization.deserialize toyCS) =
      Except.ok { ke3_message := [6] } :=
  roundtrip_serialization toyCS
    { blinded_element := [1] }
    { evaluation_element := [1], server_s_pk := [2] }
    { envelope := [2], masking_key := [3], client_s_pk := [1] }
    { blinded_element := [1], ke1_message := [4] }
    { evaluation_element := [1], masking_nonce := List.replicate 32 7,
      masked_response := [8, 9], ke2_message := [5] }
    { ke3_message := [6] }
    (by decide) (by decide) (by decide) (by decide) (by decide) (by decide)

/-- Counterexample for C8 as stated: two different random-generator states
(the stream functions differ at position 1) whose drawn bytes coincide
produce identical `masking_key` bytes, so "different generator states imply
different masking keys" fails; the `client_public_key` bytes are identical,
as the claim says. -/
theorem dummy_masking_key_counterexample :
    (fun n => if n = 0 then (5 : Nat) else 0) ≠ (fun _ : Nat => (5 : Nat)) ∧
    (RegistrationUpload.dummy toyCS (fun n => if n = 0 then 5 else 0)
        { fake_pk := [1] }).masking_key =
      (RegistrationUpload.dummy toyCS (fun _ => 5)
        { fake_pk := [1] }).masking_key ∧
    (RegistrationUpload.dummy toyCS (fun n => if n = 0 then 5 else 0)
        { fake_pk := [1] }).client_s_pk =
      (RegistrationUpload.dummy toyCS (fun _ => 5)
        { fake_pk := [1] }).client_s_pk := by
  refine ⟨?_, rfl, rfl⟩
  intro h
  have h1 := congrFun h 1
  simp at h1

/-- C8 (amended): for a fixed ciphersuite and a server setup whose fake
public key has the right length, `dummy(rng, setup).serialize()` has the
same length as any valid genuine `RegistrationUpload`'s `serialize()`
output; two calls of `dummy` whose generators differ in one of the
`HashLen` drawn bytes produce different `masking_key` bytes; and the
`client_public_key` bytes are always the setup's fake public key,
independently of the generator. -/
theorem dummy_shape_equivalence (CS : CipherSuite) (setup : ServerSetup)
    (rng rng2 : Nat → Nat) (g : RegistrationUpload) (i : Nat)
    (hsetup : setup.fake_pk.length = CS.pkLen)
    (hg : RegistrationUpload.valid CS g)
    (hi : i < CS.hashLen)
    (hdiff : rng i ≠ rng2 i) :
    (RegistrationUpload.serialize
        (RegistrationUpload.dummy CS rng setup)).map List.length =
      (RegistrationUpload.serialize g).map List.length ∧
    (RegistrationUpload.dummy CS rng setup).masking_key ≠
      (RegistrationUpload.dummy CS rng2 setup).masking_key ∧
    (RegistrationUpload.dummy CS rng setup).client_s_pk = setup.fake_pk ∧
    (RegistrationUpload.dummy CS rng2 setup).client_s_pk = setup.fake_pk := by
  obtain ⟨henl, henv, hmkl, hpl, hpv, hpc⟩ := hg
  refine ⟨?_, ?_, rfl, rfl⟩
  · simp [RegistrationUpload.serialize, RegistrationUpload.dummy, Except.map,
      Envelope.dummy, hsetup, henl, hmkl, hpl]
  · intro h
    have h2 := congrArg (fun l => l[i]?) h
    simp [RegistrationUpload.dummy, List.getElem?_map, List.getElem?_range,
      hi] at h2
    exact hdiff h2

/-- Witness for the amended C8 at the toy ciphersuite: a dummy upload has
the same serialized length as a concrete genuine upload, two generators
differing in their first drawn byte give different masking keys, and both
dummies carry the fake public key. -/
theorem dummy_shape_equivalence_witness :
    (RegistrationUpload.serialize (RegistrationUpload.dummy toyCS
        (fun _ => 0) { fake_pk := [1] })).map List.length =
      (RegistrationUpload.serialize
        { envelope := [2], masking_key := [3], client_s_pk := [1] }).map
        List.length ∧
    (RegistrationUpload.dummy toyCS (fun _ => 0)
        { fake_pk := [1] }).masking_key ≠
      (RegistrationUpload.dummy toyCS (fun _ => 1)
        { fake_pk := [1] }).masking_key ∧
    (RegistrationUpload.dummy toyCS (fun _ => 0)
        { fake_pk := [1] }).client_s_pk = [1] ∧
    (RegistrationUpload.dummy toyCS (fun _ => 1)
        { fake_pk := [1] }).client_s_pk = [1] :=
  dummy_shape_equivalence toyCS { fake_pk := [1] } (fun _ => 0) (fun _ => 1)
    { envelope := [2], masking_key := [3], client_s_pk := [1] } 0
    (by decide) (by decide) (by decide) (by decide)
